import Mathlib

/-!
Verification of the openaq-ingestor ingestion pipeline against its
natural-language specification.  The definitions below are a shallow
embedding of the Python source (src/ingest/*.py): pure fragments become
Lean functions, database updates become explicit state passing over lists
of rows, and Python exceptions become an explicit error type.
-/

namespace OpenaqIngestor

/-- PyErr models the ways the embedded Python fragments can fail:
a raised `Exception(msg)`, an `UnboundLocalError` (reading a local that was
never assigned), an `AttributeError` (calling a method that the receiver
lacks, e.g. `.isnumeric()` on a float), a `TypeError` (e.g. `'lat' in None`)
and a `ValueError` (e.g. `datetime.fromtimestamp` out of range). -/
inductive PyErr where
  | exn (msg : String)
  | unboundLocal
  | attrError
  | typeError
  | valueError
  deriving Repr, DecidableEq

/-- PVal models the Python values flowing through the measurement path:
`None`, strings, numbers (modelled as rationals; measurement values are
carried through opaquely) and dictionaries with string keys. -/
inductive PVal where
  | pnone
  | pstr (s : String)
  | pnum (q : ℚ)
  | pdict (kvs : List (String × PVal))
  deriving Repr

namespace PVal

/-- Dictionary lookup, `data.get(k)` returning `None` when absent
(Python's `dict.get` default). -/
def get (kvs : List (String × PVal)) (k : String) : Option PVal :=
  (kvs.find? (fun kv => kv.1 = k)).map (·.2)

/-- Membership test `k in data` for a Python dict. -/
def hasKey (kvs : List (String × PVal)) (k : String) : Bool :=
  kvs.any (fun kv => kv.1 = k)

/-- Python's `x is None` / `x == None` test. -/
def isNone : PVal → Bool
  | pnone => true
  | _ => false

/-- Rendering of a value inside an f-string: `None` prints as "None",
strings print verbatim, numbers via their decimal form. -/
def fstr : PVal → String
  | pnone => "None"
  | pstr s => s
  | pnum q => if q.den = 1 then toString q.num else toString q
  | pdict _ => "{...}"

end PVal

/-! ## Calendar arithmetic for `datetime.fromtimestamp(_, timezone.utc)`

`civilFromDays` is the standard days-from-epoch to (year, month, day)
conversion for the proleptic Gregorian calendar, for days ≥ 0
(the embedded code only converts non-negative epochs, since Python's
`str.isnumeric` admits no sign). -/

/-- Convert a day count since 1970-01-01 to (year, month, day). -/
def civilFromDays (days : Nat) : Nat × Nat × Nat :=
  let z := days + 719468
  let era := z / 146097
  let doe := z % 146097
  let yoe := (doe - doe / 1460 + doe / 36524 - doe / 146096) / 365
  let y := yoe + era * 400
  let doy := doe - (365 * yoe + yoe / 4 - yoe / 100)
  let mp := (5 * doy + 2) / 153
  let d := doy - (153 * mp + 2) / 5 + 1
  let m := if mp < 10 then mp + 3 else mp - 9
  (if m ≤ 2 then y + 1 else y, m, d)

/-- UTC instant as produced by `datetime.fromtimestamp(_, timezone.utc)`. -/
structure UTCTime where
  year : Nat
  month : Nat
  day : Nat
  hour : Nat
  minute : Nat
  second : Nat
  microsecond : Nat
  deriving Repr, DecidableEq

/-- Build a UTC datetime from whole seconds since the epoch plus
a microsecond part. -/
def fromEpoch (sec : Nat) (usec : Nat) : UTCTime :=
  let days := sec / 86400
  let rem := sec % 86400
  let ymd := civilFromDays days
  { year := ymd.1, month := ymd.2.1, day := ymd.2.2
    hour := rem / 3600, minute := rem % 3600 / 60, second := rem % 60
    microsecond := usec }

/-- Left-pad a decimal rendering with zeros to the given width. -/
def padNum (width n : Nat) : String :=
  let s := toString n
  String.mk (List.replicate (width - s.length) '0') ++ s

/-- Python's `datetime.isoformat()` for a tz-aware UTC datetime:
`YYYY-MM-DDTHH:MM:SS[.ffffff]+00:00`, the fractional part printed only
when the microsecond field is nonzero. -/
def isoformat (t : UTCTime) : String :=
  padNum 4 t.year ++ "-" ++ padNum 2 t.month ++ "-" ++ padNum 2 t.day ++ "T" ++
  padNum 2 t.hour ++ ":" ++ padNum 2 t.minute ++ ":" ++ padNum 2 t.second ++
  (if t.microsecond = 0 then "" else "." ++ padNum 6 t.microsecond) ++ "+00:00"

/-- Model of `str.isnumeric()` restricted to ASCII content: true iff the
string is nonempty and all characters are decimal digits.  (CSV and JSON
payloads in this pipeline carry ASCII timestamps; exotic Unicode numerics
are outside the modelled domain.) -/
def pyIsNumeric (s : String) : Bool :=
  !s.data.isEmpty && s.data.all (·.isDigit)

/-- Model of `int(s)` on a string of decimal digits. -/
def strToNat (s : String) : Nat :=
  s.data.foldl (fun acc c => acc * 10 + (c.toNat - 48)) 0

/-- Helper of `splitOnChar`: the running chunk is accumulated reversed. -/
def splitOnCharAux (sep : Char) : List Char → List Char → List (List Char)
  | [], acc => [acc.reverse]
  | c :: cs, acc =>
    if c = sep then acc.reverse :: splitOnCharAux sep cs []
    else splitOnCharAux sep cs (c :: acc)

/-- Python's `str.split(sep)` for a one-character separator (e.g.
`ingest_id.split('-')`): on the empty string it yields `[""]`, and
consecutive separators yield empty chunks, exactly as in Python. -/
def splitOnChar (sep : Char) (s : String) : List String :=
  (splitOnCharAux sep s.data []).map String.mk

/-- Largest epoch second representable by Python's `datetime`
(9999-12-31T23:59:59); `fromtimestamp` raises `ValueError` beyond it. -/
def maxEpochSecond : Nat := 253402300799

/-- Shallow embedding of `to_timestamp` (src/ingest/lcsV2.py).  The input is
`data.get(key)`: possibly `None`, a string, a number, or the legacy
`{"utc": ...}` dict which is unwrapped first.  Behaviour, line by line:
`None`/`''` log a warning and return `None`; a numeric string of length 13
is converted as epoch milliseconds and every other numeric string as epoch
seconds, then rendered with `.isoformat()`; any other string is returned
unchanged by the early `return dt` (the `dateparser.parse` call after it is
dead code, which is why no dateparser model appears here); a non-string at
the `.isnumeric()` call raises `AttributeError`. -/
def to_timestamp (dtIn : PVal) : Except PyErr (Option String) :=
  let dt := match dtIn with
    | PVal.pdict kvs => if PVal.hasKey kvs "utc" then (PVal.get kvs "utc").getD PVal.pnone else dtIn
    | _ => dtIn
  match dt with
  | PVal.pnone => Except.ok none
  | PVal.pstr s =>
    if s = "" then Except.ok none
    else if pyIsNumeric s then
      if s.length = 13 then
        let ms := strToNat s
        Except.ok (some (isoformat (fromEpoch (ms / 1000) (ms % 1000 * 1000))))
      else
        let n := strToNat s
        if n > maxEpochSecond then
          Except.error PyErr.valueError
        else
          Except.ok (some (isoformat (fromEpoch n 0)))
    else
      Except.ok (some s)
  | _ => Except.error PyErr.attrError

/-- Shallow embedding of `to_sensorid` (src/ingest/lcsV2.py):
`f"{source}-{location}-{param}"` over `data.get('sourceName')`,
`data.get('location')` and `data.get(key)`. -/
def to_sensorid (key : String) (data : List (String × PVal)) : String :=
  let param := (PVal.get data key).getD PVal.pnone
  let location := (PVal.get data "location").getD PVal.pnone
  let source := (PVal.get data "sourceName").getD PVal.pnone
  PVal.fstr source ++ "-" ++ PVal.fstr location ++ "-" ++ PVal.fstr param

/-! ## `to_geometry` (src/ingest/lcsV2.py)

The source reads `lat` only under `if 'lat' in data / elif 'latitude' in
data` (and similarly `lon`), so when neither key is present the local stays
unassigned and the later `None in [lat, lon]` read raises
`UnboundLocalError`.  The embedding tracks bound-ness with an `Option`:
`none` = never assigned. -/

/-- Value of the local `lat` after the `if 'lat' in data / elif 'latitude'
in data` chain: `none` means the local was never assigned. -/
def latBinding (kvs : List (String × PVal)) : Option PVal :=
  if PVal.hasKey kvs "lat" then some ((PVal.get kvs "lat").getD PVal.pnone)
  else if PVal.hasKey kvs "latitude" then some ((PVal.get kvs "latitude").getD PVal.pnone)
  else none

/-- Value of the local `lon` after the `if 'lon' in data / elif 'longitude'
in data` chain: `none` means the local was never assigned. -/
def lonBinding (kvs : List (String × PVal)) : Option PVal :=
  if PVal.hasKey kvs "lon" then some ((PVal.get kvs "lon").getD PVal.pnone)
  else if PVal.hasKey kvs "longitude" then some ((PVal.get kvs "longitude").getD PVal.pnone)
  else none

/-- Core of `to_geometry` once `data` is known to be a dict. -/
def to_geometry_core (kvs : List (String × PVal)) : Except PyErr String :=
  let latv := latBinding kvs
  let lonv := lonBinding kvs
  let srid := (PVal.get kvs "srid").getD (PVal.pstr "4326")
  match latv, lonv with
  | some lat, some lon =>
    if lat.isNone ∨ lon.isNone then
      Except.error (PyErr.exn "Missing value for coordinates")
    else
      Except.ok ("SRID=" ++ PVal.fstr srid ++ ";POINT(" ++ PVal.fstr lon ++ " " ++ PVal.fstr lat ++ ")")
  | _, _ => Except.error PyErr.unboundLocal

/-- Shallow embedding of `to_geometry(key, data)`.  When `key ==
'coordinates'` the function first replaces `data` by `data.get(key)`; if that
inner value is not a dict the subsequent `'lat' in data` / `data.get`
operations raise (`TypeError` for `None`/numbers, `AttributeError` for
strings, which lack `.get`). -/
def to_geometry (key : String) (data : List (String × PVal)) : Except PyErr String :=
  if key = "coordinates" then
    match PVal.get data "coordinates" with
    | some (PVal.pdict kvs) => to_geometry_core kvs
    | some (PVal.pstr _) => Except.error PyErr.attrError
    | _ => Except.error PyErr.typeError
  else
    to_geometry_core data

/-! ## The ingest accumulator (`IngestClient`, src/ingest/lcsV2.py)

Only the state touched by the claims is modelled precisely; the other
accumulated sets are carried as opaque lists so that "the rest of the state
is unchanged" is a meaningful statement. -/

/-- One staged measurement: the ordered tuple pushed by `add_measurement`:
`[ingest_id, source_name, source_id, measurand, value, datetime, lon, lat,
fetchlogs_id]`. -/
structure MeasRow where
  ingest_id : String
  source_name : String
  source_id : String
  measurand : String
  value : PVal
  datetime : PVal
  lon : PVal
  lat : PVal
  fetchlogs_id : PVal
  deriving Repr

/-- The mutable accumulator state of an `IngestClient`. -/
structure IngestState where
  measurements : List MeasRow := []
  nodes : List PVal := []
  systems : List PVal := []
  sensors : List PVal := []
  flags : List PVal := []
  node_ids : List String := []
  fetchlogs_id : PVal := PVal.pnone
  deriving Repr

/-- Tags for the transform functions stored in the client's field maps
(`func` entries), a closed enumeration instead of function values. -/
inductive FuncTag where
  | tTimestamp
  | tSensorid
  | tGeometry
  deriving Repr, DecidableEq

/-- One entry of a field-translation map: optional target column (`col`,
defaulting to the key itself) and optional transform (`func`). -/
structure MapEntry where
  col : Option String := none
  func : Option FuncTag := none

/-- The `measurement_map` dict of `IngestClient.__init__`, in insertion
order (Python dicts iterate in insertion order). -/
def measurement_map : List (String × MapEntry) :=
  [ ("sensor_id", { col := some "ingest_id" })
  , ("ingest_id", {})
  , ("parameter", { col := some "ingest_id", func := some FuncTag.tSensorid })
  , ("timestamp", { col := some "datetime", func := some FuncTag.tTimestamp })
  , ("datetime", { col := some "datetime", func := some FuncTag.tTimestamp })
  , ("date", { col := some "datetime", func := some FuncTag.tTimestamp })
  , ("coordinates", { col := some "geom", func := some FuncTag.tGeometry })
  , ("measure", { col := some "value" })
  , ("value", {})
  , ("lat", {})
  , ("lon", {})
  , ("key", { col := some "ingest_id" })
  ]

/-- Apply a mapped transform function to `(key, data)` as
`IngestClient.process` does (`value = func(key, data)`). -/
def applyFunc (t : FuncTag) (key : String) (data : List (String × PVal)) : Except PyErr PVal :=
  match t with
  | FuncTag.tTimestamp =>
    match to_timestamp ((PVal.get data key).getD PVal.pnone) with
    | Except.ok none => Except.ok PVal.pnone
    | Except.ok (some s) => Except.ok (PVal.pstr s)
    | Except.error e => Except.error e
  | FuncTag.tSensorid => Except.ok (PVal.pstr (to_sensorid key data))
  | FuncTag.tGeometry =>
    match to_geometry key data with
    | Except.ok s => Except.ok (PVal.pstr s)
    | Except.error e => Except.error e

/-- Shallow embedding of `IngestClient.process(key, data, mp)`: returns the
target column (`none` when the key is unmapped and therefore skipped) and
the mapped value. -/
def process (key : String) (data : List (String × PVal)) (mp : List (String × MapEntry)) :
    Except PyErr (Option String × PVal) :=
  match (mp.find? (fun e => e.1 = key)).map (·.2) with
  | none => Except.ok (none, PVal.pnone)
  | some entry =>
    let col := entry.col.getD key
    match entry.func with
    | none => Except.ok (some col, (PVal.get data key).getD PVal.pnone)
    | some t =>
      match applyFunc t key data with
      | Except.ok v => Except.ok (some col, v)
      | Except.error e => Except.error e

/-- Setting `meas[col] = value` on the accumulating dict: replace the
binding if present, else append (Python dict assignment keeps first
insertion position; lookups here only care about the final value). -/
def dictSet (kvs : List (String × PVal)) (k : String) (v : PVal) : List (String × PVal) :=
  if PVal.hasKey kvs k then
    kvs.map (fun kv => if kv.1 = k then (kv.1, v) else kv)
  else
    kvs ++ [(k, v)]

/-- The `for k, v in m.items()` loop of the dict branch of
`add_measurement`: map every key through `process` and accumulate the
mapped columns into `meas`. -/
def buildMeas (m : List (String × PVal)) : Except PyErr (List (String × PVal)) :=
  m.foldlM
    (fun meas kv =>
      match process kv.1 m measurement_map with
      | Except.ok (some col, v) => Except.ok (dictSet meas col v)
      | Except.ok (none, _) => Except.ok meas
      | Except.error e => Except.error e)
    []

/-- A measurement record handed to `add_measurement`: either the CSV list
shape or the JSON dict shape (`isinstance(m, list)` / `isinstance(m, dict)`
in the source). -/
inductive MInput where
  | mlist (xs : List PVal)
  | mdict (kvs : List (String × PVal))

/-- Shared straight-line tail of `add_measurement` (everything from
`if ingest_id is None` down to the push).  `ingest_id` of `None` raises
`Exception(f"Could not find ingest id in {meas}")` (the embedding keeps the
static message text); a non-string `ingest_id` raises `AttributeError` at
`.split`; fewer than 3 hyphen-separated tokens logs a warning and drops the
record; the final `if not None in [ingest_id, datetime, source_name,
source_id, measurand]` can only fail on `datetime` (the other four are
non-None strings at that point), so a `None` datetime drops the record
silently, and otherwise the 9-tuple is appended to `self.measurements`. -/
def add_meas_tail (st : IngestState) (ingest_id value datetimev lon lat fid : PVal) :
    Except PyErr IngestState :=
  match ingest_id with
  | PVal.pnone => Except.error (PyErr.exn "Could not find ingest id")
  | PVal.pstr s =>
    let arr := splitOnChar '-' s
    if arr.length < 3 then Except.ok st
    else
      let source_name := arr.headD ""
      let source_id := String.intercalate "-" ((arr.drop 1).dropLast)
      let measurand := arr.getLastD ""
      if datetimev.isNone then Except.ok st
      else Except.ok { st with measurements := st.measurements ++
        [{ ingest_id := s, source_name := source_name, source_id := source_id
         , measurand := measurand, value := value, datetime := datetimev
         , lon := lon, lat := lat, fetchlogs_id := fid }] }
  | _ => Except.error PyErr.attrError

/-- Shallow embedding of `IngestClient.add_measurement` (src/ingest/lcsV2.py).
List branch: a list shorter than 3 logs a warning and drops; otherwise
`ingest_id, value = m[0], m[1]`, `datetime = to_timestamp('dt', {"dt": m[2]})`
and, only when the list has length exactly 5, `lat = m[3]; lon = m[4]`.
Dict branch: every key is mapped through `measurement_map` via `process`,
then the derived fields are read from the accumulated `meas` dict, with
`fetchlogs_id = m.get('fetchlogs_id', self.fetchlogs_id)` read from the raw
input dict.  Both branches finish in `add_meas_tail`. -/
def add_measurement (st : IngestState) (m : MInput) : Except PyErr IngestState :=
  match m with
  | MInput.mlist xs =>
    if xs.length < 3 then Except.ok st
    else
      match to_timestamp (xs.getD 2 PVal.pnone) with
      | Except.error e => Except.error e
      | Except.ok dtv =>
        let dtP := match dtv with
          | none => PVal.pnone
          | some d => PVal.pstr d
        let lat := if xs.length = 5 then xs.getD 3 PVal.pnone else PVal.pnone
        let lon := if xs.length = 5 then xs.getD 4 PVal.pnone else PVal.pnone
        add_meas_tail st (xs.getD 0 PVal.pnone) (xs.getD 1 PVal.pnone) dtP lon lat st.fetchlogs_id
  | MInput.mdict kvs =>
    match buildMeas kvs with
    | Except.error e => Except.error e
    | Except.ok meas =>
      add_meas_tail st
        ((PVal.get meas "ingest_id").getD PVal.pnone)
        ((PVal.get meas "value").getD PVal.pnone)
        ((PVal.get meas "datetime").getD PVal.pnone)
        ((PVal.get meas "lon").getD PVal.pnone)
        ((PVal.get meas "lat").getD PVal.pnone)
        ((PVal.get kvs "fetchlogs_id").getD st.fetchlogs_id)

/-! ## `get_measurements` (src/ingest/lcsV2.py), the CSV pipeline reader -/

/-- Model of Python's `float(s)` on the plain decimal literals occurring in
CSV coordinate columns: optional sign, integer and/or fractional digits.
(`float` also accepts exponents and `inf`/`nan`; those spellings do not
occur in coordinate data and parse to `ValueError` → `None` here.) -/
def pyFloat (s : String) : Option ℚ :=
  let t := (s.data.dropWhile Char.isWhitespace).reverse.dropWhile Char.isWhitespace |>.reverse
  let (sgn, body) : ℚ × List Char :=
    match t with
    | '-' :: cs => (-1, cs)
    | '+' :: cs => (1, cs)
    | cs => (1, cs)
  match splitOnChar '.' (String.mk body) with
  | [ip] =>
    if ip ≠ "" ∧ ip.data.all (·.isDigit) then some (sgn * strToNat ip) else none
  | [ip, fp] =>
    if (ip = "" ∧ fp = "") ∨ ¬ip.data.all (·.isDigit) ∨ ¬fp.data.all (·.isDigit) then none
    else some (sgn * (strToNat ip + (strToNat fp : ℚ) / (10 : ℚ) ^ fp.length))
  | _ => none

/-- Shallow embedding of one iteration of the row loop in
`get_measurements`: `None` means the row was skipped (`continue`).  Rows
whose length is neither 3 nor 5 are skipped silently; for length-5 rows
`lon = float(row[3])`, `lat = float(row[4])` (note the lon-before-lat
order, opposite to `add_measurement`'s list branch) are validated against
zero and the WGS84 ranges, any failure nulling both; rows with an empty
`row[0]` are skipped; a numeric `row[2]` is converted exactly as in
`to_timestamp` except that the conversion sits in a `try` whose handler
only logs (so an out-of-range epoch leaves `row[2]` unchanged); finally the
fetchlogs id is inserted at position 5. -/
def processCsvRow (fetchlogsId : PVal) (row : List String) : Option (List PVal) :=
  if ¬(row.length = 3 ∨ row.length = 5) then none
  else
    let r34 : PVal × PVal :=
      if row.length = 5 then
        match pyFloat (row.getD 3 ""), pyFloat (row.getD 4 "") with
        | some lon, some lat =>
          if lon = 0 ∨ lat = 0 ∨ lon < -180 ∨ lon > 180 ∨ lat < -90 ∨ lat > 90 then
            (PVal.pnone, PVal.pnone)
          else (PVal.pnum lon, PVal.pnum lat)
        | _, _ => (PVal.pnone, PVal.pnone)
      else (PVal.pnone, PVal.pnone)
    if row.headD "" = "" then none
    else
      let dt := row.getD 2 ""
      let dt2 :=
        if pyIsNumeric dt then
          if dt.length = 13 then
            isoformat (fromEpoch (strToNat dt / 1000) (strToNat dt % 1000 * 1000))
          else if strToNat dt > maxEpochSecond then dt
          else isoformat (fromEpoch (strToNat dt) 0)
        else dt
      some [PVal.pstr (row.headD ""), PVal.pstr (row.getD 1 ""), PVal.pstr dt2,
            r34.1, r34.2, fetchlogsId]

/-- Shallow embedding of `get_measurements(key, fetchlogsId)` over the
already CSV-parsed records of the object (the `csv.reader` framing itself
is taken as given): the returned staging rows. -/
def get_measurements (fetchlogsId : PVal) (rows : List (List String)) : List (List PVal) :=
  rows.filterMap (processCsvRow fetchlogsId)

/-! ## The fetchlog work queue (src/ingest/utils.py, src/ingest/handler.py)

Database state is a list of `fetchlogs` rows; timestamps are integer
seconds.  SQL statements become pure functions from the old row list to the
new row list plus their result set. -/

/-- One row of the `fetchlogs` table. -/
structure Fetchlog where
  fetchlogs_id : Nat
  key : String
  file_size : Option Int := none
  last_modified : Option Int := none
  init_datetime : Option Int := none
  loaded_datetime : Option Int := none
  completed_datetime : Option Int := none
  has_error : Bool := false
  last_message : Option String := none
  jobs : Nat := 0
  batch_uuid : Option String := none
  deriving Repr, DecidableEq

/-- Eligibility filter of the claim query in `load_fetchlogs`
(src/ingest/utils.py): `key ~ pattern AND NOT has_error AND init_datetime
IS NOT NULL AND completed_datetime IS NULL AND (loaded_datetime IS NULL OR
loaded_datetime < now() - '30min'::interval)`.  The regex match is
abstracted to a boolean predicate on the key. -/
def eligible (pat : String → Bool) (now : Int) (r : Fetchlog) : Bool :=
  pat r.key && !r.has_error && r.init_datetime.isSome && r.completed_datetime.isNone &&
    (match r.loaded_datetime with
     | none => true
     | some t => t < now - 30 * 60)

/-- SQL `ORDER BY last_modified ASC|DESC NULLS LAST` as a boolean
"precedes" relation on rows. -/
def lmLe (ascending : Bool) (a b : Fetchlog) : Bool :=
  match a.last_modified, b.last_modified with
  | none, _ => false
  | some _, none => true
  | some x, some y => if ascending then x ≤ y else y ≤ x

/-- Insertion sort used to model the SQL ordering (a stable sort; SQL
promises no particular tie order but a deterministic model needs one). -/
def insertSorted (le : Fetchlog → Fetchlog → Bool) (a : Fetchlog) : List Fetchlog → List Fetchlog
  | [] => [a]
  | b :: bs => if le a b then a :: b :: bs else b :: insertSorted le a bs

/-- Full sort built from `insertSorted`. -/
def sortRows (le : Fetchlog → Fetchlog → Bool) : List Fetchlog → List Fetchlog
  | [] => []
  | a :: as' => insertSorted le a (sortRows le as')

/-- The per-row effect of the claim UPDATE: `loaded_datetime =
CURRENT_TIMESTAMP, jobs = jobs + 1, batch_uuid = %s`. -/
def claimUpdate (now : Int) (uuid : String) (r : Fetchlog) : Fetchlog :=
  { r with loaded_datetime := some now, jobs := r.jobs + 1, batch_uuid := some uuid }

/-- The set of rows picked by the claim subquery: eligible rows, sorted by
`last_modified` in the requested direction, first `limit` of them. -/
def claimSelection (pat : String → Bool) (limit : Nat) (ascending : Bool)
    (now : Int) (db : List Fetchlog) : List Fetchlog :=
  (sortRows (lmLe ascending) (db.filter (eligible pat now))).take limit

/-- Shallow embedding of `load_fetchlogs(pattern, limit, ascending)`
(src/ingest/utils.py): select up to `limit` eligible rows ordered by
`last_modified` in the requested direction (nulls last), update each with
the fresh batch uuid, and return their `(fetchlogs_id, key, last_modified)`
triples re-sorted by the same ordering.  Result: (returned triples, new
table state). -/
def load_fetchlogs (pat : String → Bool) (limit : Nat) (ascending : Bool)
    (now : Int) (uuid : String) (db : List Fetchlog) :
    List (Nat × String × Option Int) × List Fetchlog :=
  ((sortRows (lmLe ascending) (claimSelection pat limit ascending now db)).map
      (fun r => (r.fetchlogs_id, r.key, r.last_modified)),
   db.map (fun r =>
     if ((claimSelection pat limit ascending now db).map (·.fetchlogs_id)).contains r.fetchlogs_id
     then claimUpdate now uuid r else r))

/-- Shallow embedding of `submit_file_error(key, e)` (src/ingest/lcsV2.py):
`UPDATE fetchlogs SET completed_datetime = clock_timestamp(), last_message
= 'ERROR: ' || e WHERE key = %s`.  Note the statement does NOT touch
`has_error`. -/
def submit_file_error (key e : String) (now : Int) (db : List Fetchlog) : List Fetchlog :=
  db.map (fun r =>
    if r.key = key then
      { r with completed_datetime := some now, last_message := some ("ERROR: " ++ e) }
    else r)

/-- Shallow embedding of the upsert in `handler` (src/ingest/handler.py):
`INSERT INTO fetchlogs (key, file_size, last_modified) VALUES (...) ON
CONFLICT (key) DO UPDATE SET last_modified = EXCLUDED.last_modified,
completed_datetime = NULL`.  On conflict only those two fields change (in
particular `file_size` keeps its old value).  A fresh row takes the table
defaults for the remaining columns, abstracted by `defaults`. -/
def handler_insert (defaults : Fetchlog) (db : List Fetchlog)
    (key : String) (file_size : Option Int) (last_modified : Int) : List Fetchlog :=
  if db.any (fun r => r.key = key) then
    db.map (fun r =>
      if r.key = key then
        { r with last_modified := some last_modified, completed_datetime := none }
      else r)
  else
    let newRow := { defaults with
      key := key
      file_size := file_size
      last_modified := some last_modified
      completed_datetime := none }
    db ++ [newRow]

/-! ## `IngestClient.load_key` format dispatch (src/ingest/lcsV2.py)

The format flags come from Python regex searches whose group dot is
unescaped: `re.search(r"\.csv(.gz)?$", key)` matches `.csv` at the end or
`.csv` + ANY character + `gz` at the end, and likewise for `.json` and
`.ndjson`. -/

/-- Does `suf ++ c ++ "gz"` for some single character `c`, or plain `suf`,
terminate the key? This is exactly the language of `\.EXT(.gz)?$`. -/
def extMatch (suf : String) (key : String) : Bool :=
  suf.data.isSuffixOf key.data ||
    (decide (suf.length + 3 ≤ key.length) &&
      suf.data.isSuffixOf (key.data.take (key.data.length - 3)) &&
      (key.data.drop (key.data.length - 2) == "gz".data))

/-- The action `load_key` takes for a key, by extension.  Dispatch order is
`is_csv`, then `is_ndjson`, then `is_json`; any other key raises
`Exception('No idea what to do')`. -/
inductive LoadAction where
  | csvRows
  | ndjsonMeasures
  | jsonDocument
  deriving Repr, DecidableEq

/-- Shallow embedding of the format dispatch in `IngestClient.load_key`. -/
def load_key_dispatch (key : String) : Except PyErr LoadAction :=
  let is_csv := extMatch ".csv" key
  let is_json := extMatch ".json" key
  let is_ndjson := extMatch ".ndjson" key
  if is_csv then Except.ok LoadAction.csvRows
  else if is_ndjson then Except.ok LoadAction.ndjsonMeasures
  else if is_json then Except.ok LoadAction.jsonDocument
  else Except.error (PyErr.exn "No idea what to do")

/-! ## The cron orchestrator (src/ingest/handler.py, `cronhandler`)

Time and the three stream loaders are oracles indexed by call number; a
fuel bound makes the while-loops total (the real loops are bounded only by
the wall clock).  The model returns how many times each stream's loader was
invoked. -/

/-- Event payload of the scheduler trigger, carrying the optional
overrides `cronhandler` actually reads.  (The source reads no pause flag
and no `fetchlogKey` from the event.) -/
structure CronEvent where
  ascending : Option Bool := none
  pipeline_limit : Option Int := none
  realtime_limit : Option Int := none
  metadata_limit : Option Int := none

/-- The configuration keys consulted by the orchestrator.
`PAUSE_INGESTING` is declared in src/ingest/settings.py but `cronhandler`
never reads it. -/
structure CronSettings where
  INGEST_TIMEOUT : Int
  FETCH_ASCENDING : Bool
  PIPELINE_LIMIT : Int
  REALTIME_LIMIT : Int
  METADATA_LIMIT : Int
  PAUSE_INGESTING : Bool

/-- The metadata and pipeline drain loops: `while cnt < pending and
(time() - start_time) < timeout: cnt += load(...)`.  `elapsed i` is the
wall-clock reading at the i-th condition check; `load i` the i-th loader
result.  Returns the number of loader calls.  Note there is NO break on a
zero return. -/
def drainLoop (fuel : Nat) (pending : Int) (timeout : Int)
    (elapsed : Nat → Int) (load : Nat → Int) (cnt : Int) (i : Nat) : Nat :=
  match fuel with
  | 0 => 0
  | fuel + 1 =>
    if cnt < pending ∧ elapsed i < timeout then
      1 + drainLoop fuel pending timeout elapsed load (cnt + load i) (i + 1)
    else 0

/-- The realtime drain loop: `loaded = 1; while loaded > 0 and cnt <
pending and (time() - start_time) < timeout: loaded = load(...); cnt +=
loaded`.  This one DOES stop after a zero return. -/
def drainLoopRealtime (fuel : Nat) (pending : Int) (timeout : Int)
    (elapsed : Nat → Int) (load : Nat → Int) (loaded cnt : Int) (i : Nat) : Nat :=
  match fuel with
  | 0 => 0
  | fuel + 1 =>
    if loaded > 0 ∧ cnt < pending ∧ elapsed i < timeout then
      1 + drainLoopRealtime fuel pending timeout elapsed load (load i) (cnt + load i) (i + 1)
    else 0

/-- Shallow embedding of `cronhandler` (src/ingest/handler.py) reduced to
its loader-call behaviour.  `pendingM/R/P` are the three pre-counted
pending-row numbers the function reads from the database; the result is
the number of calls made to `load_metadata_db`, `load_db` and
`load_measurements_db` respectively.  The function consults neither
`PAUSE_INGESTING` nor any event pause flag before starting the loops. -/
def cronhandler (fuel : Nat) (s : CronSettings) (e : CronEvent)
    (pendingM pendingR pendingP : Int)
    (elapsedM elapsedR elapsedP : Nat → Int)
    (loadM loadR loadP : Nat → Int) : Nat × Nat × Nat :=
  let timeout := s.INGEST_TIMEOUT
  let pipeline_limit := e.pipeline_limit.getD s.PIPELINE_LIMIT
  let realtime_limit := e.realtime_limit.getD s.REALTIME_LIMIT
  let metadata_limit := e.metadata_limit.getD s.METADATA_LIMIT
  let mCalls := if pendingM > 0 ∧ metadata_limit > 0 then
      drainLoop fuel pendingM timeout elapsedM loadM 0 0
    else 0
  let rCalls := if pendingR > 0 ∧ realtime_limit > 0 then
      drainLoopRealtime fuel pendingR timeout elapsedR loadR 1 0 0
    else 0
  let pCalls := if pendingP > 0 ∧ pipeline_limit > 0 then
      drainLoop fuel pendingP timeout elapsedP loadP 0 0
    else 0
  (mCalls, rCalls, pCalls)

/-! # Shared lemmas about the measurement path -/

/-- The tail raises when `ingest_id` is `None`. -/
theorem add_meas_tail_none_ingest (st : IngestState) (v dtv lon lat fid : PVal) :
    add_meas_tail st PVal.pnone v dtv lon lat fid =
      Except.error (PyErr.exn "Could not find ingest id") := rfl

/-- The tail drops (state unchanged) when the ingest id has fewer than 3
hyphen-separated tokens. -/
theorem add_meas_tail_short (st : IngestState) (s : String) (v dtv lon lat fid : PVal)
    (h : (splitOnChar '-' s).length < 3) :
    add_meas_tail st (PVal.pstr s) v dtv lon lat fid = Except.ok st := by
  unfold add_meas_tail
  simp [h]

/-- The tail drops silently when the parsed datetime is `None`. -/
theorem add_meas_tail_none_dt (st : IngestState) (s : String) (v lon lat fid : PVal) :
    add_meas_tail st (PVal.pstr s) v PVal.pnone lon lat fid = Except.ok st := by
  unfold add_meas_tail
  by_cases h : (splitOnChar '-' s).length < 3 <;> simp [h, PVal.isNone]

/-- The tail pushes the 9-tuple when the ingest id is a string of at least 3
tokens and the datetime is a non-None string. -/
theorem add_meas_tail_push (st : IngestState) (s : String) (v : PVal) (d : String)
    (lon lat fid : PVal) (hsplit : 3 ≤ (splitOnChar '-' s).length) :
    add_meas_tail st (PVal.pstr s) v (PVal.pstr d) lon lat fid =
      Except.ok { st with measurements := st.measurements ++
        [{ ingest_id := s
         , source_name := (splitOnChar '-' s).headD ""
         , source_id := String.intercalate "-" (((splitOnChar '-' s).drop 1).dropLast)
         , measurand := (splitOnChar '-' s).getLastD ""
         , value := v, datetime := PVal.pstr d
         , lon := lon, lat := lat, fetchlogs_id := fid }] } := by
  unfold add_meas_tail
  have h : ¬ (splitOnChar '-' s).length < 3 := by omega
  simp [h, PVal.isNone]

/-- List-shaped records shorter than 3 are dropped with a warning. -/
theorem add_measurement_list_short (st : IngestState) (xs : List PVal)
    (h : xs.length < 3) :
    add_measurement st (MInput.mlist xs) = Except.ok st := by
  unfold add_measurement
  simp [h]

/-- Full behaviour of the list branch on a well-formed record: the 9-tuple
is appended, with `lat`/`lon` read from positions 3/4 only for length-5
records. -/
theorem add_measurement_list_push (st : IngestState) (xs : List PVal) (s d : String)
    (h3 : 3 ≤ xs.length) (h0 : xs.getD 0 PVal.pnone = PVal.pstr s)
    (hdt : to_timestamp (xs.getD 2 PVal.pnone) = Except.ok (some d))
    (hsplit : 3 ≤ (splitOnChar '-' s).length) :
    add_measurement st (MInput.mlist xs) =
      Except.ok { st with measurements := st.measurements ++
        [{ ingest_id := s
         , source_name := (splitOnChar '-' s).headD ""
         , source_id := String.intercalate "-" (((splitOnChar '-' s).drop 1).dropLast)
         , measurand := (splitOnChar '-' s).getLastD ""
         , value := xs.getD 1 PVal.pnone
         , datetime := PVal.pstr d
         , lon := if xs.length = 5 then xs.getD 4 PVal.pnone else PVal.pnone
         , lat := if xs.length = 5 then xs.getD 3 PVal.pnone else PVal.pnone
         , fetchlogs_id := st.fetchlogs_id }] } := by
  unfold add_measurement
  have h : ¬ xs.length < 3 := by omega
  simp only [h, if_false, hdt, h0]
  exact add_meas_tail_push st s _ d _ _ _ hsplit

/-- A decimal digit character contributes at most 9. -/
theorem digit_le (c : Char) (hc : c.isDigit = true) : c.toNat - 48 ≤ 9 := by
  simp [Char.isDigit] at hc
  obtain ⟨h1, h2⟩ := hc
  have : c.toNat ≤ 57 := by
    simpa [Char.le_def, Char.toNat] using h2
  omega

/-- Folding decimal digits multiplies the accumulator bound by 10 per
character. -/
theorem foldl_digits_lt (cs : List Char) (h : ∀ c ∈ cs, c.isDigit = true) :
    ∀ (acc A : Nat), acc < A →
      cs.foldl (fun a c => a * 10 + (c.toNat - 48)) acc < A * 10 ^ cs.length := by
  induction cs with
  | nil => intro acc A hA; simpa using hA
  | cons c cs ih =>
    intro acc A hA
    have hc := digit_le c (h c (List.mem_cons_self _ _))
    have hrest := ih (fun x hx => h x (List.mem_cons_of_mem _ hx))
      (acc * 10 + (c.toNat - 48)) (A * 10) (by omega)
    simpa [List.foldl_cons, pow_succ, mul_assoc, mul_comm, mul_left_comm] using hrest

/-- The numeric value of an all-digit string is below `10 ^ length`. -/
theorem strToNat_lt (s : String) (h : s.data.all (·.isDigit) = true) :
    strToNat s < 10 ^ s.length := by
  have hall : ∀ c ∈ s.data, c.isDigit = true := by
    intro c hc
    exact List.all_eq_true.mp h c hc
  have hres := foldl_digits_lt s.data hall 0 1 (by omega)
  rw [strToNat]
  calc s.data.foldl (fun a c => a * 10 + (c.toNat - 48)) 0 < 1 * 10 ^ s.data.length := hres
    _ = 10 ^ s.length := by rw [one_mul]; rfl

/-- A numeric string is nonempty. -/
theorem pyIsNumeric_ne_empty (s : String) (h : pyIsNumeric s = true) : ¬s = "" := by
  intro he
  subst he
  simp [pyIsNumeric, String.isEmpty] at h

/-! # Claim theorems -/

/-- C8: `to_timestamp` maps a 13-digit numeric string to the ISO-8601 UTC
rendering of the epoch-millisecond instant (Python's
`datetime.fromtimestamp(int(S)/1000, timezone.utc).isoformat()`), a
10-digit numeric string to the analogous epoch-second rendering, returns
`None` (after logging a warning) for `None` and for the empty string, and
returns every other non-numeric string unchanged — the observable form of
the fact that the `dateparser.parse` call after the early `return dt` is
unreachable. -/
theorem C8_to_timestamp_conversion :
    (∀ s : String, pyIsNumeric s = true → s.length = 13 →
        to_timestamp (PVal.pstr s) = Except.ok (some (isoformat
          (fromEpoch (strToNat s / 1000) (strToNat s % 1000 * 1000))))) ∧
    (∀ s : String, pyIsNumeric s = true → s.length = 10 →
        to_timestamp (PVal.pstr s) =
          Except.ok (some (isoformat (fromEpoch (strToNat s) 0)))) ∧
    (to_timestamp PVal.pnone = Except.ok none) ∧
    (to_timestamp (PVal.pstr "") = Except.ok none) ∧
    (∀ s : String, pyIsNumeric s = false → ¬s = "" →
        to_timestamp (PVal.pstr s) = Except.ok (some s)) := by
  refine ⟨?_, ?_, rfl, rfl, ?_⟩
  · intro s h1 h13
    have hne := pyIsNumeric_ne_empty s h1
    simp [to_timestamp, hne, h1, h13]
  · intro s h1 h10
    have hne := pyIsNumeric_ne_empty s h1
    have hdig : s.data.all (·.isDigit) = true := by
      have h1b := h1
      unfold pyIsNumeric at h1b
      simp only [Bool.and_eq_true] at h1b
      exact h1b.2
    have hlt : strToNat s < 10 ^ s.length := strToNat_lt s hdig
    have hbound : ¬ strToNat s > maxEpochSecond := by
      rw [h10] at hlt
      unfold maxEpochSecond
      omega
    have h13 : ¬ s.length = 13 := by omega
    simp [to_timestamp, hne, h1, h13, hbound]
  · intro s h1 hne
    simp [to_timestamp, hne, h1]

/-- Witness for C8: the three string-shaped clauses applied at a 13-digit
epoch-millisecond string, a 10-digit epoch-second string and a non-numeric
ISO string, with the resulting ISO strings spelled out. -/
theorem C8_to_timestamp_conversion_witness :
    to_timestamp (PVal.pstr "1609459200123") =
      Except.ok (some "2021-01-01T00:00:00.123000+00:00") ∧
    to_timestamp (PVal.pstr "1609459200") =
      Except.ok (some "2021-01-01T00:00:00+00:00") ∧
    to_timestamp (PVal.pstr "2021-06-01T00:00:00Z") =
      Except.ok (some "2021-06-01T00:00:00Z") := by
  refine ⟨?_, ?_, ?_⟩
  · exact (C8_to_timestamp_conversion.1 "1609459200123" (by decide) (by decide)).trans rfl
  · exact (C8_to_timestamp_conversion.2.1 "1609459200" (by decide) (by decide)).trans rfl
  · exact C8_to_timestamp_conversion.2.2.2.2 "2021-06-01T00:00:00Z" (by decide) (by decide)

/-- C10: `to_geometry` on a document that binds neither `lat`/`latitude`
(or neither `lon`/`longitude`) fails with an unbound-local error rather
than its declared `'Missing value for coordinates'` exception, and that
declared exception is reachable only when both locals were bound (the keys
are present) and at least one holds `None`. -/
theorem C10_to_geometry_unbound_local :
    (to_geometry "geometry" [("lon", PVal.pnum 5)] = Except.error PyErr.unboundLocal) ∧
    (∀ kvs : List (String × PVal), latBinding kvs = none ∨ lonBinding kvs = none →
        to_geometry_core kvs = Except.error PyErr.unboundLocal) ∧
    (∀ kvs : List (String × PVal),
        to_geometry_core kvs = Except.error (PyErr.exn "Missing value for coordinates") →
        ∃ la lo, latBinding kvs = some la ∧ lonBinding kvs = some lo ∧
          (la.isNone = true ∨ lo.isNone = true)) := by
  refine ⟨rfl, ?_, ?_⟩
  · intro kvs h
    unfold to_geometry_core
    rcases h with h | h
    · rw [h]
    · rw [h]
      cases latBinding kvs <;> rfl
  · intro kvs h
    unfold to_geometry_core at h
    cases hla : latBinding kvs with
    | none => rw [hla] at h; cases h
    | some la =>
      cases hlo : lonBinding kvs with
      | none => rw [hla, hlo] at h; cases h
      | some lo =>
        rw [hla, hlo] at h
        refine ⟨la, lo, rfl, rfl, ?_⟩
        by_cases hn : la.isNone = true ∨ lo.isNone = true
        · exact hn
        · push_neg at hn
          simp only [hn.1, hn.2] at h
          simp at h

/-- Witness for C10: the universally quantified clauses applied to concrete
documents — one missing the `lat` keys entirely (unbound local), one with
`lat` present but `None` (the declared exception). -/
theorem C10_to_geometry_unbound_local_witness :
    to_geometry_core [("lon", PVal.pnum 5)] = Except.error PyErr.unboundLocal ∧
    (∃ la lo, latBinding [("lat", PVal.pnone), ("lon", PVal.pnum 5)] = some la ∧
      lonBinding [("lat", PVal.pnone), ("lon", PVal.pnum 5)] = some lo ∧
      (la.isNone = true ∨ lo.isNone = true)) :=
  ⟨C10_to_geometry_unbound_local.2.1 _ (Or.inl rfl),
   C10_to_geometry_unbound_local.2.2 _ rfl⟩

/-- C2 counterexample: the record `["a-b-c", 1, ""]` has an ingest id that
splits into 3 tokens, yet `add_measurement` appends nothing (the empty
datetime parses to `None` and the final null check drops the record), so
the unconditional "appends the tuple" of the claim is false. -/
theorem C2_counterexample_null_datetime :
    (add_measurement {} (MInput.mlist [PVal.pstr "a-b-c", PVal.pnum 1, PVal.pstr ""])).toOption.map
      (fun st => st.measurements.length) = some 0 := rfl

/-- C2 (amended): for a list-shaped measurement whose ingest id splits into
at least 3 tokens, `add_measurement` derives `source_name` from the first
token, `measurand` from the last and `source_id` from the re-joined middle
tokens and appends the 9-tuple in order `(ingest_id, source_name,
source_id, measurand, value, datetime, lon, lat, fetchlogs_id)` — PROVIDED
the parsed datetime is non-null (a null datetime drops the record, per the
null-drop rule); a record with fewer than 3 tokens is dropped with a
warning and appends nothing. -/
theorem C2_ingest_id_split :
    (∀ (st : IngestState) (xs : List PVal) (s d : String),
        3 ≤ xs.length → xs.getD 0 PVal.pnone = PVal.pstr s →
        to_timestamp (xs.getD 2 PVal.pnone) = Except.ok (some d) →
        3 ≤ (splitOnChar '-' s).length →
        add_measurement st (MInput.mlist xs) =
          Except.ok { st with measurements := st.measurements ++
            [{ ingest_id := s
             , source_name := (splitOnChar '-' s).headD ""
             , source_id := String.intercalate "-" (((splitOnChar '-' s).drop 1).dropLast)
             , measurand := (splitOnChar '-' s).getLastD ""
             , value := xs.getD 1 PVal.pnone
             , datetime := PVal.pstr d
             , lon := if xs.length = 5 then xs.getD 4 PVal.pnone else PVal.pnone
             , lat := if xs.length = 5 then xs.getD 3 PVal.pnone else PVal.pnone
             , fetchlogs_id := st.fetchlogs_id }] }) ∧
    (∀ (st : IngestState) (xs : List PVal) (s : String) (r : Option String),
        3 ≤ xs.length → xs.getD 0 PVal.pnone = PVal.pstr s →
        to_timestamp (xs.getD 2 PVal.pnone) = Except.ok r →
        (splitOnChar '-' s).length < 3 →
        add_measurement st (MInput.mlist xs) = Except.ok st) := by
  constructor
  · intro st xs s d h3 h0 hdt hsplit
    exact add_measurement_list_push st xs s d h3 h0 hdt hsplit
  · intro st xs s r h3 h0 hdt hsplit
    unfold add_measurement
    have h : ¬ xs.length < 3 := by omega
    simp only [h, if_false, hdt, h0]
    cases r with
    | none => exact add_meas_tail_none_dt st s _ _ _ _
    | some d => exact add_meas_tail_short st s _ _ _ _ _ hsplit

/-- Witness for C2: the push clause applied to the concrete record
`["a-b-c", 7, "123"]` (epoch second 123). -/
theorem C2_ingest_id_split_witness :
    add_measurement {} (MInput.mlist [PVal.pstr "a-b-c", PVal.pnum 7, PVal.pstr "123"]) =
      Except.ok { measurements :=
        [{ ingest_id := "a-b-c", source_name := "a", source_id := "b", measurand := "c"
         , value := PVal.pnum 7, datetime := PVal.pstr "1970-01-01T00:02:03+00:00"
         , lon := PVal.pnone, lat := PVal.pnone, fetchlogs_id := PVal.pnone }] } :=
  (C2_ingest_id_split.1 {} [PVal.pstr "a-b-c", PVal.pnum 7, PVal.pstr "123"]
    "a-b-c" "1970-01-01T00:02:03+00:00" (by decide) rfl rfl (by decide)).trans rfl

/-- C6 counterexample: a record whose derived `ingest_id` is null does not
drop silently — `add_measurement` raises `Exception('Could not find ingest
id in ...')`. -/
theorem C6_counterexample_null_ingest_raises :
    add_measurement {} (MInput.mlist [PVal.pnone, PVal.pnum 1, PVal.pstr "123"]) =
      Except.error (PyErr.exn "Could not find ingest id") := rfl

/-- C6 (amended): a null `ingest_id` makes `add_measurement` raise
`'Could not find ingest id'` (both through the shared tail and at the list
branch); with a string `ingest_id` and a null parsed datetime (the only
derived field of {datetime, source_name, source_id, measurand} that can
still be null at the final check) the record is dropped silently, the state
— measurements list included — returned entirely unchanged. -/
theorem C6_null_field_handling :
    (∀ (st : IngestState) (v dtv lon lat fid : PVal),
        add_meas_tail st PVal.pnone v dtv lon lat fid =
          Except.error (PyErr.exn "Could not find ingest id")) ∧
    (∀ (st : IngestState) (v : PVal),
        add_measurement st (MInput.mlist [PVal.pnone, v, PVal.pnone]) =
          Except.error (PyErr.exn "Could not find ingest id")) ∧
    (∀ (st : IngestState) (s : String) (v lon lat fid : PVal),
        add_meas_tail st (PVal.pstr s) v PVal.pnone lon lat fid = Except.ok st) ∧
    (∀ (st : IngestState) (v : PVal),
        add_measurement st (MInput.mlist [PVal.pstr "a-b-c", v, PVal.pnone]) = Except.ok st) := by
  refine ⟨fun st v dtv lon lat fid => rfl, fun st v => rfl,
    fun st s v lon lat fid => add_meas_tail_none_dt st s v lon lat fid, fun st v => ?_⟩
  exact add_meas_tail_none_dt st "a-b-c" v PVal.pnone PVal.pnone st.fetchlogs_id

/-- C7 counterexample: the length-4 list record `["a-b-c", 7, "123", 99]`
is NOT dropped — `add_measurement` appends a measurement for it (with null
coordinates, the 4th element ignored). -/
theorem C7_counterexample_length_four_kept :
    (add_measurement {} (MInput.mlist
      [PVal.pstr "a-b-c", PVal.pnum 7, PVal.pstr "123", PVal.pnum 99])).toOption.map
      (fun st => st.measurements.length) = some 1 := rfl

/-- C7 (amended): the two CSV record paths differ. In `get_measurements`
a record whose arity is neither 3 nor 5 is skipped — silently, there is no
warning.  In `add_measurement`'s list branch only records shorter than 3
are dropped (with a warning): any record of length ≥ 3 — length 4
included — is interpreted as a measurement, reading `lat`/`lon` from
positions 3/4 only when the length is exactly 5 and leaving them null
otherwise. -/
theorem C7_csv_record_arity :
    (∀ (fid : PVal) (row : List String), ¬(row.length = 3 ∨ row.length = 5) →
        processCsvRow fid row = none) ∧
    (∀ (st : IngestState) (xs : List PVal), xs.length < 3 →
        add_measurement st (MInput.mlist xs) = Except.ok st) ∧
    (∀ (st : IngestState) (xs : List PVal) (s d : String),
        xs.length = 4 → xs.getD 0 PVal.pnone = PVal.pstr s →
        to_timestamp (xs.getD 2 PVal.pnone) = Except.ok (some d) →
        3 ≤ (splitOnChar '-' s).length →
        add_measurement st (MInput.mlist xs) =
          Except.ok { st with measurements := st.measurements ++
            [{ ingest_id := s
             , source_name := (splitOnChar '-' s).headD ""
             , source_id := String.intercalate "-" (((splitOnChar '-' s).drop 1).dropLast)
             , measurand := (splitOnChar '-' s).getLastD ""
             , value := xs.getD 1 PVal.pnone
             , datetime := PVal.pstr d
             , lon := PVal.pnone, lat := PVal.pnone
             , fetchlogs_id := st.fetchlogs_id }] }) := by
  refine ⟨?_, add_measurement_list_short, ?_⟩
  · intro fid row h
    unfold processCsvRow
    simp [h]
  · intro st xs s d h4 h0 hdt hsplit
    have h3 : 3 ≤ xs.length := by omega
    have h5 : ¬ xs.length = 5 := by omega
    have := add_measurement_list_push st xs s d h3 h0 hdt hsplit
    simpa [h5] using this

/-- Witness for C7: the arity-gate clause applied at a concrete length-4
CSV row, which `get_measurements` skips. -/
theorem C7_csv_record_arity_witness :
    ¬((["a-b-c", "5", "123", "9"] : List String).length = 3 ∨
      (["a-b-c", "5", "123", "9"] : List String).length = 5) ∧
    processCsvRow (PVal.pnum 9) ["a-b-c", "5", "123", "9"] = none :=
  ⟨by decide, C7_csv_record_arity.1 (PVal.pnum 9) ["a-b-c", "5", "123", "9"] (by decide)⟩

/-! # Lemmas about the queue model -/

/-- Membership is preserved by `insertSorted`. -/
theorem mem_insertSorted (le : Fetchlog → Fetchlog → Bool) (a x : Fetchlog)
    (l : List Fetchlog) : x ∈ insertSorted le a l ↔ x = a ∨ x ∈ l := by
  induction l with
  | nil => simp [insertSorted]
  | cons b bs ih =>
    unfold insertSorted
    by_cases h : le a b
    · simp [h]
    · simp only [h]
      simp [ih]
      tauto

/-- Membership is preserved by `sortRows`. -/
theorem mem_sortRows (le : Fetchlog → Fetchlog → Bool) (x : Fetchlog)
    (l : List Fetchlog) : x ∈ sortRows le l ↔ x ∈ l := by
  induction l with
  | nil => simp [sortRows]
  | cons a as ih => simp [sortRows, mem_insertSorted, ih]

/-- Membership implies a true `contains` for id lists. -/
theorem contains_of_mem_nat (l : List Nat) (a : Nat) (h : a ∈ l) :
    l.contains a = true := by
  induction l with
  | nil => cases h
  | cons b bs ih =>
    cases h with
    | head => simp
    | tail _ hb => simpa using Or.inr hb

/-- C1: every triple returned by the fetchlog claim comes from a row of the
table that was eligible at claim time — `init_datetime` non-null,
`completed_datetime` null, `has_error` false, `loaded_datetime` null or
older than the 30-minute visibility window, and key matching the pattern —
and the new table state contains that row updated with `loaded_datetime =
now`, `jobs` incremented by one and the call's freshly generated
`batch_uuid`; consequently no ineligible row is ever returned. -/
theorem C1_load_fetchlogs_claims_eligible (pat : String → Bool) (limit : Nat)
    (asc : Bool) (now : Int) (uuid : String) (db : List Fetchlog)
    (x : Nat × String × Option Int)
    (hx : x ∈ (load_fetchlogs pat limit asc now uuid db).1) :
    ∃ r ∈ db, eligible pat now r = true ∧
      x = (r.fetchlogs_id, r.key, r.last_modified) ∧
      claimUpdate now uuid r ∈ (load_fetchlogs pat limit asc now uuid db).2 := by
  unfold load_fetchlogs at hx
  obtain ⟨r, hrs, hxr⟩ := List.mem_map.mp hx
  have hrsel : r ∈ claimSelection pat limit asc now db := (mem_sortRows _ _ _).mp hrs
  have hrsorted : r ∈ sortRows (lmLe asc) (db.filter (eligible pat now)) := by
    have := hrsel
    unfold claimSelection at this
    exact List.take_subset _ _ this
  have hrfil : r ∈ db.filter (eligible pat now) := (mem_sortRows _ _ _).mp hrsorted
  obtain ⟨hrdb, helig⟩ := List.mem_filter.mp hrfil
  have hid : ((claimSelection pat limit asc now db).map (·.fetchlogs_id)).contains
      r.fetchlogs_id = true :=
    contains_of_mem_nat _ _ (List.mem_map_of_mem _ hrsel)
  have hm := List.mem_map_of_mem (fun r : Fetchlog =>
    if ((claimSelection pat limit asc now db).map (·.fetchlogs_id)).contains r.fetchlogs_id
    then claimUpdate now uuid r else r) hrdb
  have hfr : (if ((claimSelection pat limit asc now db).map (·.fetchlogs_id)).contains
      r.fetchlogs_id then claimUpdate now uuid r else r) = claimUpdate now uuid r := by
    rw [hid]
    rfl
  refine ⟨r, hrdb, helig, hxr.symm, ?_⟩
  show claimUpdate now uuid r ∈ db.map (fun r : Fetchlog =>
    if ((claimSelection pat limit asc now db).map (·.fetchlogs_id)).contains r.fetchlogs_id
    then claimUpdate now uuid r else r)
  rw [← hfr]
  exact hm

/-- Witness for C1: a one-row table holding an eligible row; the claim
returns it and the post-state carries the updated row. -/
theorem C1_load_fetchlogs_claims_eligible_witness :
    ((1, "stations/a.csv", some 50) : Nat × String × Option Int) ∈
      (load_fetchlogs (fun _ => true) 10 true 10000 "u"
        [{ fetchlogs_id := 1, key := "stations/a.csv", last_modified := some 50
         , init_datetime := some 1 }]).1 ∧
    ∃ r ∈ [({ fetchlogs_id := 1, key := "stations/a.csv", last_modified := some 50
            , init_datetime := some 1 } : Fetchlog)],
      eligible (fun _ => true) 10000 r = true ∧
      ((1, "stations/a.csv", some 50) : Nat × String × Option Int) =
        (r.fetchlogs_id, r.key, r.last_modified) ∧
      claimUpdate 10000 "u" r ∈
        (load_fetchlogs (fun _ => true) 10 true 10000 "u"
          [{ fetchlogs_id := 1, key := "stations/a.csv", last_modified := some 50
           , init_datetime := some 1 }]).2 :=
  ⟨by decide, C1_load_fetchlogs_claims_eligible _ _ _ _ _ _ _ (by decide)⟩

/-- Number of fetchlog rows holding a given key (the `key UNIQUE`
constraint keeps this at most 1 in any reachable database). -/
def keyCount (db : List Fetchlog) (key : String) : Nat :=
  (db.filter (fun r => r.key = key)).length

/-- Mapping a key-preserving function over the table does not change the
per-key row count. -/
theorem keyCount_map (f : Fetchlog → Fetchlog) (hf : ∀ r, (f r).key = r.key)
    (db : List Fetchlog) (key : String) :
    keyCount (db.map f) key = keyCount db key := by
  induction db with
  | nil => rfl
  | cons r rs ih =>
    unfold keyCount at ih ⊢
    simp only [List.map_cons, List.filter_cons, hf r]
    by_cases h : r.key = key
    · simp [h, ih]
    · simp [h, ih]

/-- No row holds the key when `any` says so. -/
theorem keyCount_eq_zero (db : List Fetchlog) (key : String)
    (h : db.any (fun r => r.key = key) = false) : keyCount db key = 0 := by
  induction db with
  | nil => rfl
  | cons r rs ih =>
    simp only [List.any_cons, Bool.or_eq_false_iff] at h
    have hk : ¬ r.key = key := by
      intro he
      rw [he] at h
      simp at h
    have hd : (decide (r.key = key)) = false := decide_eq_false hk
    unfold keyCount at ih ⊢
    rw [List.filter_cons, hd]
    simp only [Bool.false_eq_true, if_false]
    exact ih h.2

/-- At least one row holds the key when `any` says so. -/
theorem keyCount_pos (db : List Fetchlog) (key : String)
    (h : db.any (fun r => r.key = key) = true) : 1 ≤ keyCount db key := by
  induction db with
  | nil => simp at h
  | cons r rs ih =>
    simp only [List.any_cons, Bool.or_eq_true] at h
    unfold keyCount
    simp only [List.filter_cons]
    by_cases hk : r.key = key
    · simp [hk]
    · simp only [hk, decide_eq_true_eq]
      simp [hk]
      apply ih
      rcases h with h | h
      · exact absurd (of_decide_eq_true h) hk
      · exact h

/-- Appending one row adjusts the count by whether it holds the key. -/
theorem keyCount_append_one (db : List Fetchlog) (r : Fetchlog) (key : String) :
    keyCount (db ++ [r]) key =
      keyCount db key + (if r.key = key then 1 else 0) := by
  unfold keyCount
  rw [List.filter_append, List.length_append]
  by_cases h : r.key = key <;> simp [h]

/-- Every key-holding row of the updated table carries the new
`last_modified` and a cleared `completed_datetime`. -/
theorem mem_map_conflict_update (db : List Fetchlog) (key : String) (lm : Int)
    (r' : Fetchlog)
    (h : r' ∈ db.map (fun r => if r.key = key then
      { r with last_modified := some lm, completed_datetime := none } else r))
    (hk : r'.key = key) :
    r'.last_modified = some lm ∧ r'.completed_datetime = none := by
  obtain ⟨r, _, heq⟩ := List.mem_map.mp h
  by_cases hr : r.key = key
  · rw [if_pos hr] at heq
    rw [← heq]
    exact ⟨rfl, rfl⟩
  · rw [if_neg hr] at heq
    rw [← heq] at hk
    exact absurd hk hr

/-- The conflict update preserves keys. -/
theorem conflict_update_key (key : String) (lm : Int) (r : Fetchlog) :
    ((fun r : Fetchlog => if r.key = key then
      { r with last_modified := some lm, completed_datetime := none } else r) r).key
      = r.key := by
  by_cases h : r.key = key <;> simp [h]

/-- `handler_insert` in the conflict case is a pure per-row update. -/
theorem handler_insert_conflict (defaults : Fetchlog) (db : List Fetchlog)
    (key : String) (fs : Option Int) (lm : Int)
    (h : db.any (fun r => r.key = key) = true) :
    handler_insert defaults db key fs lm =
      db.map (fun r => if r.key = key then
        { r with last_modified := some lm, completed_datetime := none } else r) := by
  unfold handler_insert
  rw [if_pos h]

/-- `handler_insert` in the fresh case appends the new row. -/
theorem handler_insert_fresh (defaults : Fetchlog) (db : List Fetchlog)
    (key : String) (fs : Option Int) (lm : Int)
    (h : db.any (fun r => r.key = key) = false) :
    handler_insert defaults db key fs lm =
      db ++ [{ defaults with
        key := key
        file_size := fs
        last_modified := some lm
        completed_datetime := none }] := by
  unfold handler_insert
  rw [if_neg (by simp [h])]

/-- `handler_insert` leaves at least one row with the key, so `any` finds
it afterwards. -/
theorem handler_insert_any (defaults : Fetchlog) (db : List Fetchlog)
    (key : String) (fs : Option Int) (lm : Int) :
    (handler_insert defaults db key fs lm).any (fun r => r.key = key) = true := by
  by_cases hA : db.any (fun r => r.key = key) = true
  · rw [handler_insert_conflict defaults db key fs lm hA]
    obtain ⟨r, hr, hrk⟩ := List.any_eq_true.mp hA
    apply List.any_eq_true.mpr
    refine ⟨(fun r : Fetchlog => if r.key = key then
      { r with last_modified := some lm, completed_datetime := none } else r) r,
      List.mem_map_of_mem _ hr, ?_⟩
    have := conflict_update_key key lm r
    rw [decide_eq_true_eq] at hrk ⊢
    rw [this, hrk]
  · rw [handler_insert_fresh defaults db key fs lm (Bool.eq_false_iff.mpr hA)]
    apply List.any_eq_true.mpr
    refine ⟨_, List.mem_append_right _ (List.mem_singleton_self _), ?_⟩
    simp

/-- C9: applying the upsert-on-notify twice for the same key leaves exactly
one fetchlogs row for that key — provided the table respected the `key
UNIQUE` constraint beforehand — and that row carries the second call's
`last_modified` together with a NULL `completed_datetime`, whatever state
the row reached after the first application. -/
theorem C9_upsert_idempotent (defaults : Fetchlog) (db : List Fetchlog)
    (key : String) (fs1 fs2 : Option Int) (lm1 lm2 : Int)
    (huniq : keyCount db key ≤ 1) :
    keyCount (handler_insert defaults (handler_insert defaults db key fs1 lm1)
      key fs2 lm2) key = 1 ∧
    ∀ r ∈ handler_insert defaults (handler_insert defaults db key fs1 lm1) key fs2 lm2,
      r.key = key → r.last_modified = some lm2 ∧ r.completed_datetime = none := by
  have hany1 : (handler_insert defaults db key fs1 lm1).any (fun r => r.key = key) = true :=
    handler_insert_any defaults db key fs1 lm1
  have hsecond : handler_insert defaults (handler_insert defaults db key fs1 lm1) key fs2 lm2 =
      (handler_insert defaults db key fs1 lm1).map (fun r => if r.key = key then
        { r with last_modified := some lm2, completed_datetime := none } else r) :=
    handler_insert_conflict defaults _ key fs2 lm2 hany1
  constructor
  · rw [hsecond, keyCount_map _ (conflict_update_key key lm2) _ key]
    have hcount1 : keyCount (handler_insert defaults db key fs1 lm1) key = 1 := by
      by_cases hA : db.any (fun r => r.key = key) = true
      · rw [handler_insert_conflict defaults db key fs1 lm1 hA,
          keyCount_map _ (conflict_update_key key lm1) _ key]
        have := keyCount_pos db key hA
        omega
      · rw [handler_insert_fresh defaults db key fs1 lm1 (Bool.eq_false_iff.mpr hA),
          keyCount_append_one, keyCount_eq_zero db key (Bool.eq_false_iff.mpr hA)]
        simp
    exact hcount1
  · intro r hr hk
    rw [hsecond] at hr
    exact mem_map_conflict_update _ key lm2 r hr hk

/-- Witness for C9: two inserts for key "k" into an empty table. -/
theorem C9_upsert_idempotent_witness :
    keyCount [] "k" ≤ 1 ∧
    (keyCount (handler_insert { fetchlogs_id := 0, key := "" }
        (handler_insert { fetchlogs_id := 0, key := "" } [] "k" (some 10) 5)
        "k" none 7) "k" = 1 ∧
      ∀ r ∈ handler_insert { fetchlogs_id := 0, key := "" }
          (handler_insert { fetchlogs_id := 0, key := "" } [] "k" (some 10) 5) "k" none 7,
        r.key = "k" → r.last_modified = some 7 ∧ r.completed_datetime = none) :=
  ⟨by decide, C9_upsert_idempotent { fetchlogs_id := 0, key := "" } [] "k"
    (some 10) none 5 7 (by decide)⟩

/-- C3 — what the code actually does on an unsupported file (the claim,
the spec and the repo's own test `test_lcsv2_integration.py` expect
`has_error = true` and a `last_message` containing `'Not sure how to read
file'`): `load_key` raises `Exception('No idea what to do')`, and even the
(otherwise uncalled) `submit_file_error` would only set
`completed_datetime` and `last_message = 'ERROR: ...'`, leaving
`has_error` untouched and never producing the expected message text. -/
theorem C3_unsupported_file_actual_behaviour :
    load_key_dispatch "x.tab" = Except.error (PyErr.exn "No idea what to do") ∧
    (∀ (key e : String) (now : Int) (db : List Fetchlog) (r' : Fetchlog),
        r' ∈ submit_file_error key e now db →
        ∃ r ∈ db, r'.has_error = r.has_error ∧
          (r.key = key →
            r'.last_message = some ("ERROR: " ++ e) ∧
            r'.completed_datetime = some now)) ∧
    ¬ List.IsInfix ("Not sure how to read file").data
        ("ERROR: No idea what to do").data := by
  refine ⟨rfl, ?_, by decide⟩
  intro key e now db r' h
  unfold submit_file_error at h
  obtain ⟨r, hr, heq⟩ := List.mem_map.mp h
  by_cases hk : r.key = key
  · rw [if_pos hk] at heq
    subst heq
    exact ⟨r, hr, rfl, fun _ => ⟨rfl, rfl⟩⟩
  · rw [if_neg hk] at heq
    subst heq
    exact ⟨r, hr, rfl, fun hkk => absurd hkk hk⟩

/-- Witness for C3: the `submit_file_error` clause applied to a one-row
table for the failing key `x.tab`. -/
theorem C3_unsupported_file_actual_behaviour_witness :
    ({ fetchlogs_id := 1, key := "x.tab", completed_datetime := some 99
     , last_message := some "ERROR: No idea what to do" } : Fetchlog) ∈
      submit_file_error "x.tab" "No idea what to do" 99
        [{ fetchlogs_id := 1, key := "x.tab" }] ∧
    ∃ r ∈ [({ fetchlogs_id := 1, key := "x.tab" } : Fetchlog)],
      ({ fetchlogs_id := 1, key := "x.tab", completed_datetime := some 99
       , last_message := some "ERROR: No idea what to do" } : Fetchlog).has_error = r.has_error ∧
      (r.key = "x.tab" →
        ({ fetchlogs_id := 1, key := "x.tab", completed_datetime := some 99
         , last_message := some "ERROR: No idea what to do" } : Fetchlog).last_message =
          some ("ERROR: " ++ "No idea what to do") ∧
        ({ fetchlogs_id := 1, key := "x.tab", completed_datetime := some 99
         , last_message := some "ERROR: No idea what to do" } : Fetchlog).completed_datetime =
          some 99) :=
  ⟨by decide, C3_unsupported_file_actual_behaviour.2.1 "x.tab" "No idea what to do" 99
    [{ fetchlogs_id := 1, key := "x.tab" }] _ (by decide)⟩

/-- C4 — what the orchestrator loops actually do when a load call returns
zero: the metadata and pipeline loops (`while cnt < pending and elapsed <
timeout`) contain no zero-return break, so with a loader that always
returns 0 and the wall clock frozen before the timeout they keep calling
the loader once per unit of fuel; only the realtime loop (`while loaded >
0 and ...`) stops after its first zero return, and a whole `cronhandler`
run under these oracles makes `fuel` metadata calls, 1 realtime call and
`fuel` pipeline calls. -/
theorem C4_zero_return_does_not_stop_loop :
    (∀ (fuel : Nat) (pending timeout : Int) (i : Nat), 0 < pending → 0 < timeout →
        drainLoop fuel pending timeout (fun _ => 0) (fun _ => 0) 0 i = fuel) ∧
    (∀ (fuel : Nat) (pending timeout : Int), 2 ≤ fuel → 0 < pending → 0 < timeout →
        drainLoopRealtime fuel pending timeout (fun _ => 0) (fun _ => 0) 1 0 0 = 1) ∧
    (cronhandler 4 { INGEST_TIMEOUT := 300, FETCH_ASCENDING := true, PIPELINE_LIMIT := 10
                   , REALTIME_LIMIT := 10, METADATA_LIMIT := 10, PAUSE_INGESTING := false } {}
        3 3 3 (fun _ => 0) (fun _ => 0) (fun _ => 0)
        (fun _ => 0) (fun _ => 0) (fun _ => 0) = (4, 1, 4)) := by
  refine ⟨?_, ?_, by decide⟩
  · intro fuel pending timeout i hp ht
    induction fuel generalizing i with
    | zero => rfl
    | succ n ih =>
      unfold drainLoop
      rw [if_pos ⟨hp, ht⟩]
      have : (0 : Int) + 0 = 0 := by omega
      rw [this, ih (i + 1)]
      omega
  · intro fuel pending timeout hf hp ht
    obtain ⟨k, rfl⟩ : ∃ k, fuel = k + 2 := ⟨fuel - 2, by omega⟩
    unfold drainLoopRealtime
    rw [if_pos ⟨by omega, hp, ht⟩]
    unfold drainLoopRealtime
    rw [if_neg (by omega)]

/-- Witness for C4: a frozen clock and a constant-zero loader make the
metadata-style loop run 3 times on fuel 3, where the claim expects a
single call. -/
theorem C4_zero_return_does_not_stop_loop_witness :
    (0 : Int) < 3 ∧ (0 : Int) < 300 ∧
    drainLoop 3 3 300 (fun _ => 0) (fun _ => 0) 0 0 = 3 ∧
    drainLoopRealtime 3 3 300 (fun _ => 0) (fun _ => 0) 1 0 0 = 1 :=
  ⟨by decide, by decide,
    C4_zero_return_does_not_stop_loop.1 3 3 300 0 (by decide) (by decide),
    C4_zero_return_does_not_stop_loop.2.1 3 3 300 (by decide) (by decide) (by decide)⟩

/-- C5 — the pause flag is never consulted: `cronhandler` computes the same
loader-call counts whatever `PAUSE_INGESTING` holds (the source never reads
it, nor any event pause field), and with the flag set it still claims work —
here one call on each of the three streams — where the claim (and the
repo's tests `test_cronhandler_unit.py::test_cronhandler_paused`,
`test_handler_integration.py::test_cronhandler_respects_pause_setting`)
demand an immediate return with no loader calls. -/
theorem C5_pause_flag_never_consulted :
    (∀ (fuel : Nat) (t : Int) (fa : Bool) (pl rl ml : Int) (e : CronEvent)
        (pm pr pp : Int) (eM eR eP lM lR lP : Nat → Int),
        cronhandler fuel { INGEST_TIMEOUT := t, FETCH_ASCENDING := fa, PIPELINE_LIMIT := pl
                         , REALTIME_LIMIT := rl, METADATA_LIMIT := ml
                         , PAUSE_INGESTING := true } e pm pr pp eM eR eP lM lR lP =
        cronhandler fuel { INGEST_TIMEOUT := t, FETCH_ASCENDING := fa, PIPELINE_LIMIT := pl
                         , REALTIME_LIMIT := rl, METADATA_LIMIT := ml
                         , PAUSE_INGESTING := false } e pm pr pp eM eR eP lM lR lP) ∧
    (cronhandler 5 { INGEST_TIMEOUT := 300, FETCH_ASCENDING := true, PIPELINE_LIMIT := 10
                   , REALTIME_LIMIT := 10, METADATA_LIMIT := 10, PAUSE_INGESTING := true } {}
        1 1 1 (fun _ => 0) (fun _ => 0) (fun _ => 0)
        (fun _ => 1) (fun _ => 1) (fun _ => 1) = (1, 1, 1)) :=
  ⟨fun _ _ _ _ _ _ _ _ _ _ _ _ _ _ _ _ => rfl, by decide⟩

end OpenaqIngestor
